import Mathlib

/-!
Shallow embedding of the Security Hub backend (`src/main.py`): a FastAPI app
with event logs, per-user settings and a breach-check proxy.  Datetimes are
modelled as natural numbers, the document database (the `db` handle from the
`database` module, an optional MongoDB database) as an explicit in-memory
state, and the upstream HTTPS call of `requests.get` as an explicit outcome
parameter.
-/

namespace SecurityHub

/-- UTC datetimes (`datetime.now(timezone.utc)`) are modelled as natural numbers;
only their ordering matters to the program. -/
abbrev Timestamp := Nat

/-- The eight admissible values of `LogEntry.type`
(the `Literal[...]` in `src/main.py` lines 24-33). -/
def logTypeValues : List String :=
  ["phishing_warning", "ad_blocked", "download_scanned", "suspicious_behavior",
   "login", "logout", "settings_change", "info"]

/-- Pydantic validation of the `type` field of a POST `/api/logs` body: FastAPI
rejects the request with a 422 error when `type` is not one of the eight
literals, before the handler body runs. -/
def validLogType (t : String) : Bool := logTypeValues.contains t

/-- The request body of POST `/api/logs` (`class LogEntry`, `src/main.py`
lines 22-35).  `type` is kept as a `String`; `validLogType` is the boundary
check that pydantic's `Literal` performs.  The free-form `data` map is an
association list. -/
structure LogEntry where
  user_id : Option String := none
  type : String
  message : String
  data : Option (List (String × String)) := none
deriving Repr, DecidableEq

/-- A document of the `logs` collection: the fields of `entry.model_dump()`
plus the server-assigned `created_at` (line 91) and the storage-assigned
identity `oid` (MongoDB `_id`). -/
structure LogDoc where
  oid : Nat
  user_id : Option String
  type : String
  message : String
  data : Option (List (String × String))
  created_at : Timestamp
deriving Repr, DecidableEq

/-- The request body of POST `/api/settings` (`class SettingsPayload`,
`src/main.py` lines 38-43); every flag defaults to `True`. -/
structure SettingsPayload where
  user_id : Option String := none
  ad_blocker_enabled : Bool := true
  phishing_protection_enabled : Bool := true
  download_scanner_enabled : Bool := true
  behavior_detector_enabled : Bool := true
deriving Repr, DecidableEq

/-- A document of the `settings` collection: `payload.model_dump()` with the
server-assigned `updated_at` (line 114) and the storage identity `oid`
(MongoDB `_id`).  `user_id` is a plain string here because `save_settings`
rejects falsy (`None` or empty) user ids before writing. -/
structure SettingsDoc where
  oid : Nat
  user_id : String
  ad_blocker_enabled : Bool
  phishing_protection_enabled : Bool
  download_scanner_enabled : Bool
  behavior_detector_enabled : Bool
  updated_at : Timestamp
deriving Repr, DecidableEq

/-- The document database behind the `db` handle: the two persisted
collections named by the code (`db["logs"]`, `db["settings"]`).  The handle
itself is `Option DB`: `none` models `db is None` (storage unavailable). -/
structure DB where
  logs : List LogDoc
  settings : List SettingsDoc
deriving Repr, DecidableEq

/-- JSON values appearing in responses whose exact field set matters. -/
inductive JValue
  | s (v : String)
  | b (v : Bool)
  | n (v : Nat)
deriving Repr, DecidableEq

/-- Python truthiness of an optional string (`if not payload.user_id`,
`if not hibp_key`): `None` and the empty string are falsy. -/
def truthy : Option String → Bool
  | none => false
  | some s => s != ""

/-! ## POST /api/logs (`add_log`, `src/main.py` lines 85-93) -/

/-- The JSON body returned by `add_log`. -/
structure AddLogResult where
  status : String
  warning : Option String
deriving Repr, DecidableEq

/-- Handler of POST `/api/logs` after validation.  `now` is the value of
`datetime.now(timezone.utc)` taken inside the handler and `newId` the
storage-assigned identity of the inserted document.  Returns the response
and the database state after the call. -/
def add_log (db : Option DB) (entry : LogEntry) (now : Timestamp) (newId : Nat) :
    AddLogResult × Option DB :=
  match db with
  | none => (⟨"ok", some "database not configured"⟩, none)
  | some d =>
      let doc : LogDoc :=
        ⟨newId, entry.user_id, entry.type, entry.message, entry.data, now⟩
      (⟨"ok", none⟩, some { d with logs := d.logs ++ [doc] })

/-- The full POST `/api/logs` endpoint: pydantic validation of `type`
(422 on failure, before the handler and hence before any storage call),
then `add_log`. -/
inductive PostLogsResponse
  | ok (r : AddLogResult)
  | validationError (status : Nat)
deriving Repr, DecidableEq

def postLogsEndpoint (db : Option DB) (entry : LogEntry) (now : Timestamp) (newId : Nat) :
    PostLogsResponse × Option DB :=
  if validLogType entry.type then
    let r := add_log db entry now newId
    (.ok r.1, r.2)
  else (.validationError 422, db)

/-! ## GET /api/logs (`get_logs`, `src/main.py` lines 96-104) -/

/-- The filter built on line 100: `{"user_id": user_id} if user_id else {}`.
A falsy `user_id` (absent or empty) yields the empty filter, modelled as
`none`. -/
def logsFlt (user_id : Option String) : Option String :=
  match user_id with
  | none => none
  | some u => if u = "" then none else some u

/-- Whether a stored log document matches the MongoDB filter. -/
def matchesFlt (flt : Option String) (d : LogDoc) : Bool :=
  match flt with
  | none => true
  | some u => d.user_id == some u

/-- The sort order requested on line 101: `sort("created_at", -1)`,
i.e. descending `created_at`. -/
def logRel (a b : LogDoc) : Prop := b.created_at ≤ a.created_at

instance : DecidableRel logRel := fun a b => Nat.decLe b.created_at a.created_at

instance : IsTotal LogDoc logRel := ⟨fun a b => Nat.le_total b.created_at a.created_at⟩

instance : IsTrans LogDoc logRel := ⟨fun _ _ _ hab hbc => Nat.le_trans hbc hab⟩

/-- MongoDB cursor `limit(n)` semantics: a limit of 0 is equivalent to setting
no limit; a negative limit returns at most the absolute value of that many
documents (and closes the cursor). -/
def mongoLimit (n : Int) (xs : List LogDoc) : List LogDoc :=
  if n = 0 then xs else xs.take n.natAbs

/-- A returned log item: the stored document with its storage identity
stringified (`it["_id"] = str(it["_id"])`, line 103). -/
structure LogItem where
  oid : String
  user_id : Option String
  type : String
  message : String
  data : Option (List (String × String))
  created_at : Timestamp
deriving Repr, DecidableEq

def stringifyId (d : LogDoc) : LogItem :=
  ⟨toString d.oid, d.user_id, d.type, d.message, d.data, d.created_at⟩

/-- Handler of GET `/api/logs`: empty list when storage is unavailable,
otherwise filter, sort by `created_at` descending, apply the limit
(default 100) and stringify identities. -/
def get_logs (db : Option DB) (user_id : Option String := none) (limit : Int := 100) :
    List LogItem :=
  match db with
  | none => []
  | some d =>
      let found := d.logs.filter (matchesFlt (logsFlt user_id))
      (mongoLimit limit (found.insertionSort logRel)).map stringifyId

/-! ## POST /api/settings (`save_settings`, `src/main.py` lines 107-116) -/

inductive SaveResult
  | ok (warning : Option String)
  | httpError (status : Nat) (detail : String)
deriving Repr, DecidableEq

/-- MongoDB `update_one(filter, set, upsert=True)` on the `settings`
collection: replace the first document whose `user_id` matches (keeping its
storage identity, since every field of the new document is in the set
document except `_id`), or append when none matches. -/
def upsertOne (nd : SettingsDoc) : List SettingsDoc → List SettingsDoc
  | [] => [nd]
  | x :: xs =>
      if x.user_id = nd.user_id then { nd with oid := x.oid } :: xs
      else x :: upsertOne nd xs

/-- Handler of POST `/api/settings`: a falsy `user_id` raises a 400 error
before the storage check; otherwise soft-fail without storage, or upsert the
full flag set keyed by `user_id`. -/
def save_settings (db : Option DB) (p : SettingsPayload) (now : Timestamp) (newId : Nat) :
    SaveResult × Option DB :=
  match p.user_id with
  | none => (.httpError 400 "user_id required for settings sync", db)
  | some u =>
      if u = "" then (.httpError 400 "user_id required for settings sync", db)
      else
        match db with
        | none => (.ok (some "database not configured"), none)
        | some d =>
            let doc : SettingsDoc :=
              ⟨newId, u, p.ad_blocker_enabled, p.phishing_protection_enabled,
               p.download_scanner_enabled, p.behavior_detector_enabled, now⟩
            (.ok none, some { d with settings := upsertOne doc d.settings })

/-! ## GET /api/settings (`fetch_settings`, `src/main.py` lines 119-137) -/

/-- The JSON rendering of a stored settings document, in document field
order: identity first, then the `model_dump()` fields, then `updated_at`. -/
def settingsDocJson (d : SettingsDoc) : List (String × JValue) :=
  [("_id", .n d.oid),
   ("user_id", .s d.user_id),
   ("ad_blocker_enabled", .b d.ad_blocker_enabled),
   ("phishing_protection_enabled", .b d.phishing_protection_enabled),
   ("download_scanner_enabled", .b d.download_scanner_enabled),
   ("behavior_detector_enabled", .b d.behavior_detector_enabled),
   ("updated_at", .n d.updated_at)]

/-- The all-defaults body returned when storage is unavailable or no record
exists (lines 122-127 and 130-135). -/
def defaultSettingsJson : List (String × JValue) :=
  [("ad_blocker_enabled", .b true),
   ("phishing_protection_enabled", .b true),
   ("download_scanner_enabled", .b true),
   ("behavior_detector_enabled", .b true)]

/-- The `item.pop("_id", None)` of line 136: drop the identity field. -/
def popId (doc : List (String × JValue)) : List (String × JValue) :=
  doc.filter (fun kv => kv.1 != "_id")

/-- Handler of GET `/api/settings`: defaults without storage, defaults when
`find_one` misses, otherwise the stored document without its identity
field. -/
def fetch_settings (db : Option DB) (user_id : String) : List (String × JValue) :=
  match db with
  | none => defaultSettingsJson
  | some d =>
      match d.settings.find? (fun s => s.user_id == user_id) with
      | none => defaultSettingsJson
      | some item => popId (settingsDocJson item)

/-- The field names of a JSON response. -/
def responseKeys (r : List (String × JValue)) : List String := r.map Prod.fst

/-- The four feature-flag field names. -/
def flagKeys : List String :=
  ["ad_blocker_enabled", "phishing_protection_enabled",
   "download_scanner_enabled", "behavior_detector_enabled"]

/-! ## GET /api/breach-check (`breach_check`, `src/main.py` lines 140-169) -/

/-- What `requests.get` produced: `jsonList` is the result of `r.json()`
when it parses as a list of breach records (only the record count matters),
`none` when parsing would raise. -/
structure HTTPResponse where
  status : Nat
  body : String
  jsonList : Option (List String)
deriving Repr, DecidableEq

/-- Outcome of the upstream call: a response, or a raised network/timeout
exception with its message. -/
inductive Upstream
  | ok (r : HTTPResponse)
  | err (msg : String)
deriving Repr, DecidableEq

/-- The response of the breach-check endpoint: a success body, or an
HTTPException with status and detail. -/
inductive BreachResult
  | success (email : String) (exposed : Bool) (count : Option Nat) (source : String)
  | httpError (status : Nat) (detail : String)
deriving Repr, DecidableEq

/-- Starlette renders `str(HTTPException(status, detail))` as the status
code, a colon and a space, then the detail. -/
def httpExceptionStr (status : Nat) (detail : String) : String :=
  toString status ++ ": " ++ detail

/-- The message of the exception raised by `r.json()` on an unparsable
body. -/
def jsonDecodeErrorMsg : String := "Expecting value: line 1 column 1 (char 0)"

/-- Handler of GET `/api/breach-check` after email validation.  `hibp_key` is
`os.getenv("HIBP_API_KEY")`; `upstream` the outcome of the one
`requests.get`.  The second component records whether the upstream call was
made.  Note the `raise HTTPException(r.status_code, r.text[:200])` of
line 167 sits inside the `try` block, and `HTTPException` is an `Exception`,
so the `except` on line 168 catches it and re-raises it as a 500 whose
detail is the string rendering of the caught exception, truncated to 200
characters. -/
def breach_check (hibp_key : Option String) (email : String) (upstream : Upstream) :
    BreachResult × Bool :=
  if truthy hibp_key then
    match upstream with
    | .err msg => (.httpError 500 (msg.take 200), true)
    | .ok r =>
        if r.status = 200 then
          match r.jsonList with
          | some breaches =>
              (.success email (decide (0 < breaches.length)) (some breaches.length) "hibp",
               true)
          | none => (.httpError 500 (jsonDecodeErrorMsg.take 200), true)
        else if r.status = 404 then (.success email false none "hibp", true)
        else
          (.httpError 500 ((httpExceptionStr r.status (r.body.take 200)).take 200), true)
  else (.success email false none "none", false)

/-- Splitting a character list at every occurrence of a separator. -/
def splitOnChar (c : Char) : List Char → List (List Char)
  | [] => [[]]
  | x :: xs =>
      match splitOnChar c xs with
      | [] => if x = c then [[], []] else [[x]]
      | y :: ys => if x = c then [] :: y :: ys else (x :: y) :: ys

/-- Modelled format check for pydantic `EmailStr` (the external
email-validator library): exactly one `@` separating a nonempty local part
from a domain that has at least two nonempty dot-separated labels.  FastAPI
rejects a query email failing this check with a 422 error before the handler
runs. -/
def isValidEmail (e : String) : Bool :=
  match splitOnChar '@' e.data with
  | [localPart, domain] =>
      localPart != [] && domain != [] &&
        (match splitOnChar '.' domain with
         | parts => parts.length != 1 && parts.all (fun p => p != []))
  | _ => false

/-- The full GET `/api/breach-check` endpoint: email format validation (422
before any upstream call), then the handler. -/
def breachCheckEndpoint (hibp_key : Option String) (email : String) (upstream : Upstream) :
    BreachResult × Bool :=
  if isValidEmail email then breach_check hibp_key email upstream
  else (.httpError 422 "value is not a valid email address", false)


/-- C3: POST `/api/settings` with a missing `user_id` always fails with a 400
error, regardless of the other field values and of the database state, and
the stored state is unchanged (the rejection happens before any storage
call). -/
theorem save_settings_missing_user_id_rejected (db : Option DB) (p : SettingsPayload)
    (now : Timestamp) (newId : Nat) (h : p.user_id = none) :
    (save_settings db p now newId).1 = .httpError 400 "user_id required for settings sync" ∧
    (save_settings db p now newId).2 = db := by
  simp [save_settings, h]

/-- C3 witness: a concrete payload without `user_id`, with storage
unavailable. -/
theorem save_settings_missing_user_id_rejected_witness :
    ({ type := "", user_id := none, message := "" : LogEntry }).user_id = none ∧
    ((save_settings none { user_id := none, ad_blocker_enabled := false } 3 7).1 =
        .httpError 400 "user_id required for settings sync" ∧
      (save_settings none { user_id := none, ad_blocker_enabled := false } 3 7).2 = none) :=
  ⟨rfl, save_settings_missing_user_id_rejected none
    { user_id := none, ad_blocker_enabled := false } 3 7 rfl⟩

/-- C5: with no API key configured, breach-check on a syntactically valid
email succeeds with exposed false and source none, and no upstream call is
made (the outcome is the same whatever the upstream would have done). -/
theorem breach_check_no_key_default (email : String) (upstream : Upstream)
    (h : isValidEmail email = true) :
    breachCheckEndpoint none email upstream = (.success email false none "none", false) := by
  simp [breachCheckEndpoint, h, breach_check, truthy]

/-- C5 witness: concrete valid email, upstream failing outright. -/
theorem breach_check_no_key_default_witness :
    isValidEmail "user@example.com" = true ∧
    breachCheckEndpoint none "user@example.com" (.err "connection refused") =
      (.success "user@example.com" false none "none", false) :=
  ⟨by decide, breach_check_no_key_default "user@example.com" (.err "connection refused")
    (by decide)⟩

/-- C9: GET `/api/logs` with an empty-string `user_id` behaves exactly like
omitting `user_id`: the filter is dropped and entries of all users are
returned. -/
theorem get_logs_empty_user_id (db : Option DB) (limit : Int) :
    get_logs db (some "") limit = get_logs db none limit := by
  cases db <;> rfl

set_option maxRecDepth 10000 in
/-- C1 (code behavior at the failing input): with an API key configured, an
upstream 429 response is NOT passed through: the `HTTPException(429, body)`
raised inside the `try` block is caught by the `except Exception` handler
and re-raised as a 500 whose detail is the string rendering of the caught
exception.  A network error is wrapped to a 500 as the claim states. -/
theorem breach_check_upstream_status_wrapped_to_500 :
    breach_check (some "key") "user@example.com" (.ok ⟨429, "rate limited", none⟩) =
      (.httpError 500 "429: rate limited", true) ∧
    breach_check (some "key") "user@example.com" (.err "timed out") =
      (.httpError 500 "timed out", true) := by
  decide

/-- C4: with an API key configured, an upstream 200 carrying a list of n
breach records yields a success with exposed iff n is positive, count n and
source hibp; an upstream 404 yields a success with exposed false and source
hibp. -/
theorem breach_check_200_404 (k email body404 body200 : String)
    (breaches : List String) (j : Option (List String)) (hk : k ≠ "") :
    breach_check (some k) email (.ok ⟨200, body200, some breaches⟩) =
      (.success email (decide (0 < breaches.length)) (some breaches.length) "hibp", true) ∧
    breach_check (some k) email (.ok ⟨404, body404, j⟩) =
      (.success email false none "hibp", true) := by
  simp [breach_check, truthy, hk]

/-- C4 witness: a 200 with two breach records and a 404, matching the spec's
worked example. -/
theorem breach_check_200_404_witness :
    ("key" : String) ≠ "" ∧
    (breach_check (some "key") "user@example.com" (.ok ⟨200, "[]", some ["Adobe", "LinkedIn"]⟩) =
        (.success "user@example.com" true (some 2) "hibp", true) ∧
      breach_check (some "key") "user@example.com" (.ok ⟨404, "", none⟩) =
        (.success "user@example.com" false none "hibp", true)) :=
  ⟨by decide, breach_check_200_404 "key" "user@example.com" "" "[]" ["Adobe", "LinkedIn"]
    none (by decide)⟩

/-- C8: a POST `/api/logs` body whose `type` is not one of the eight enum
values is rejected with a 422 leaving the database untouched, and a GET
`/api/breach-check` whose email fails the format check is rejected with a
422 with no upstream call made. -/
theorem validation_rejects_before_downstream (db : Option DB) (e : LogEntry)
    (now : Timestamp) (newId : Nat) (k : Option String) (email : String) (up : Upstream)
    (htype : validLogType e.type = false) (hemail : isValidEmail email = false) :
    postLogsEndpoint db e now newId = (.validationError 422, db) ∧
    breachCheckEndpoint k email up = (.httpError 422 "value is not a valid email address", false) := by
  simp [postLogsEndpoint, htype, breachCheckEndpoint, hemail]

/-- C8 witness: a bogus log type and a malformed email. -/
theorem validation_rejects_before_downstream_witness :
    validLogType "bogus" = false ∧ isValidEmail "not-an-email" = false ∧
    (postLogsEndpoint (some ⟨[], []⟩) { type := "bogus", message := "m" } 0 0 =
        (.validationError 422, some ⟨[], []⟩) ∧
      breachCheckEndpoint (some "key") "not-an-email" (.err "down") =
        (.httpError 422 "value is not a valid email address", false)) :=
  ⟨by decide, by decide,
    validation_rejects_before_downstream (some ⟨[], []⟩) { type := "bogus", message := "m" }
      0 0 (some "key") "not-an-email" (.err "down") (by decide) (by decide)⟩


/-- After an upsert keyed on `nd.user_id`, `find_one` on that key retrieves
the upserted document (up to the storage identity, which a replacement
keeps). -/
theorem find_upsertOne (nd : SettingsDoc) (u : String) (hu : nd.user_id = u) :
    ∀ l : List SettingsDoc,
      ∃ i, (upsertOne nd l).find? (fun s => s.user_id == u) = some { nd with oid := i }
  | [] => ⟨nd.oid, by subst hu; simp [upsertOne]⟩
  | x :: xs => by
      subst hu
      rw [upsertOne]
      by_cases hx : x.user_id = nd.user_id
      · exact ⟨x.oid, by simp [hx]⟩
      · obtain ⟨i, hi⟩ := find_upsertOne nd nd.user_id rfl xs
        exact ⟨i, by simp [hx, hi]⟩

/-- C2: a successful settings write for user `u` followed by a read for `u`
returns exactly the four flag values last written; a read for a user with no
stored record, or with storage unavailable, returns the all-true
defaults. -/
theorem settings_roundtrip (d dMiss : DB) (p : SettingsPayload) (u v w : String)
    (now : Timestamp) (newId : Nat)
    (hu : p.user_id = some u) (hne : u ≠ "")
    (hv : dMiss.settings.find? (fun s => s.user_id == v) = none) :
    (save_settings (some d) p now newId).1 = .ok none ∧
    (List.lookup "ad_blocker_enabled" (fetch_settings (save_settings (some d) p now newId).2 u) =
        some (.b p.ad_blocker_enabled) ∧
      List.lookup "phishing_protection_enabled"
          (fetch_settings (save_settings (some d) p now newId).2 u) =
        some (.b p.phishing_protection_enabled) ∧
      List.lookup "download_scanner_enabled"
          (fetch_settings (save_settings (some d) p now newId).2 u) =
        some (.b p.download_scanner_enabled) ∧
      List.lookup "behavior_detector_enabled"
          (fetch_settings (save_settings (some d) p now newId).2 u) =
        some (.b p.behavior_detector_enabled)) ∧
    fetch_settings (some dMiss) v = defaultSettingsJson ∧
    fetch_settings none w = defaultSettingsJson ∧
    (List.lookup "ad_blocker_enabled" defaultSettingsJson = some (.b true) ∧
      List.lookup "phishing_protection_enabled" defaultSettingsJson = some (.b true) ∧
      List.lookup "download_scanner_enabled" defaultSettingsJson = some (.b true) ∧
      List.lookup "behavior_detector_enabled" defaultSettingsJson = some (.b true)) := by
  obtain ⟨i, hi⟩ := find_upsertOne
    ⟨newId, u, p.ad_blocker_enabled, p.phishing_protection_enabled,
     p.download_scanner_enabled, p.behavior_detector_enabled, now⟩ u rfl d.settings
  refine ⟨by simp [save_settings, hu, hne], ?_, by simp [fetch_settings, hv], rfl,
    by decide⟩
  simp [save_settings, hu, hne, fetch_settings, hi, popId, settingsDocJson, List.lookup]

/-- C2 witness: write non-default flags for a user and read them back; the
other cases use an empty store. -/
theorem settings_roundtrip_witness :
    ({ user_id := some "alice", ad_blocker_enabled := false,
       behavior_detector_enabled := false : SettingsPayload }).user_id = some "alice" ∧
    ("alice" : String) ≠ "" ∧
    (DB.mk [] []).settings.find? (fun s => s.user_id == "bob") = none ∧
    ((save_settings (some ⟨[], []⟩)
        { user_id := some "alice", ad_blocker_enabled := false,
          behavior_detector_enabled := false } 4 9).1 = .ok none ∧
      (List.lookup "ad_blocker_enabled"
          (fetch_settings (save_settings (some ⟨[], []⟩)
            { user_id := some "alice", ad_blocker_enabled := false,
              behavior_detector_enabled := false } 4 9).2 "alice") = some (.b false) ∧
        List.lookup "phishing_protection_enabled"
          (fetch_settings (save_settings (some ⟨[], []⟩)
            { user_id := some "alice", ad_blocker_enabled := false,
              behavior_detector_enabled := false } 4 9).2 "alice") = some (.b true) ∧
        List.lookup "download_scanner_enabled"
          (fetch_settings (save_settings (some ⟨[], []⟩)
            { user_id := some "alice", ad_blocker_enabled := false,
              behavior_detector_enabled := false } 4 9).2 "alice") = some (.b true) ∧
        List.lookup "behavior_detector_enabled"
          (fetch_settings (save_settings (some ⟨[], []⟩)
            { user_id := some "alice", ad_blocker_enabled := false,
              behavior_detector_enabled := false } 4 9).2 "alice") = some (.b false)) ∧
      fetch_settings (some ⟨[], []⟩) "bob" = defaultSettingsJson ∧
      fetch_settings none "carol" = defaultSettingsJson ∧
      (List.lookup "ad_blocker_enabled" defaultSettingsJson = some (.b true) ∧
        List.lookup "phishing_protection_enabled" defaultSettingsJson = some (.b true) ∧
        List.lookup "download_scanner_enabled" defaultSettingsJson = some (.b true) ∧
        List.lookup "behavior_detector_enabled" defaultSettingsJson = some (.b true))) :=
  ⟨rfl, by decide, rfl,
    settings_roundtrip ⟨[], []⟩ ⟨[], []⟩
      { user_id := some "alice", ad_blocker_enabled := false,
        behavior_detector_enabled := false } "alice" "bob" "carol" 4 9 rfl (by decide) rfl⟩

/-- C10: a settings read that finds a stored record returns that document
with only the storage identity removed, so its fields are `user_id`, the
four flags and `updated_at`; the not-found and storage-unavailable branches
return exactly the four flag fields; and in every case the response never
contains an `_id` field. -/
theorem fetch_settings_field_shape (d dMiss : DB) (u v : String) (doc : SettingsDoc)
    (db2 : Option DB) (w : String)
    (hfound : d.settings.find? (fun s => s.user_id == u) = some doc)
    (hmiss : dMiss.settings.find? (fun s => s.user_id == v) = none) :
    fetch_settings (some d) u = popId (settingsDocJson doc) ∧
    responseKeys (fetch_settings (some d) u) =
      ["user_id", "ad_blocker_enabled", "phishing_protection_enabled",
       "download_scanner_enabled", "behavior_detector_enabled", "updated_at"] ∧
    responseKeys (fetch_settings (some dMiss) v) = flagKeys ∧
    responseKeys (fetch_settings none w) = flagKeys ∧
    "_id" ∉ responseKeys (fetch_settings db2 w) := by
  refine ⟨by simp [fetch_settings, hfound],
    by simp [fetch_settings, hfound, popId, settingsDocJson, responseKeys],
    by simp [fetch_settings, hmiss, responseKeys, defaultSettingsJson, flagKeys],
    rfl, ?_⟩
  cases db2 with
  | none =>
      show "_id" ∉ responseKeys defaultSettingsJson
      decide
  | some dd =>
      cases hf : dd.settings.find? (fun s => s.user_id == w) with
      | none =>
          simp only [fetch_settings, hf]
          decide
      | some doc2 => simp [fetch_settings, hf, popId, settingsDocJson, responseKeys]

/-- C10 witness: a store holding one record for alice and none for bob. -/
theorem fetch_settings_field_shape_witness :
    (DB.mk [] [⟨5, "alice", false, true, true, false, 8⟩]).settings.find?
        (fun s => s.user_id == "alice") = some ⟨5, "alice", false, true, true, false, 8⟩ ∧
    (DB.mk [] []).settings.find? (fun s => s.user_id == "bob") = none ∧
    (fetch_settings (some ⟨[], [⟨5, "alice", false, true, true, false, 8⟩]⟩) "alice" =
        popId (settingsDocJson ⟨5, "alice", false, true, true, false, 8⟩) ∧
      responseKeys (fetch_settings (some ⟨[], [⟨5, "alice", false, true, true, false, 8⟩]⟩)
          "alice") =
        ["user_id", "ad_blocker_enabled", "phishing_protection_enabled",
         "download_scanner_enabled", "behavior_detector_enabled", "updated_at"] ∧
      responseKeys (fetch_settings (some ⟨[], []⟩) "bob") = flagKeys ∧
      responseKeys (fetch_settings none "carol") = flagKeys ∧
      "_id" ∉ responseKeys (fetch_settings none "carol")) :=
  ⟨by decide, rfl,
    fetch_settings_field_shape ⟨[], [⟨5, "alice", false, true, true, false, 8⟩]⟩ ⟨[], []⟩
      "alice" "bob" ⟨5, "alice", false, true, true, false, 8⟩ none "carol"
      (by decide) rfl⟩


/-- The MongoDB limit stage keeps the list sorted. -/
theorem sorted_mongoLimit (n : Int) (l : List LogDoc) (h : l.Sorted logRel) :
    (mongoLimit n l).Sorted logRel := by
  unfold mongoLimit
  split
  · exact h
  · exact h.sublist (List.take_sublist _ _)

/-- Every document surviving the limit stage comes from the input list. -/
theorem mem_of_mem_mongoLimit {n : Int} {l : List LogDoc} {a : LogDoc}
    (h : a ∈ mongoLimit n l) : a ∈ l := by
  unfold mongoLimit at h
  split at h
  · exact h
  · exact List.take_subset _ _ h

set_option maxRecDepth 4000 in
/-- C6 counterexample: with one stored entry, `limit = 0` does not truncate
to at most 0 items — MongoDB treats a limit of 0 as no limit, so the
endpoint returns the entry. -/
theorem get_logs_limit_zero_not_truncated :
    (get_logs (some ⟨[⟨1, none, "info", "m", none, 5⟩], []⟩) none 0).length = 1 ∧
    ¬ ((get_logs (some ⟨[⟨1, none, "info", "m", none, 5⟩], []⟩) none 0).length ≤
        Int.natAbs 0) := by
  decide

/-- C6 (amended): GET `/api/logs` returns items in non-increasing
`created_at` order, each item a stored document with its storage identity
stringified, truncated to at most `limit` items whenever `limit` is nonzero
(a limit of 0 disables truncation, per MongoDB cursor semantics); when
storage is unavailable it returns an empty items list. -/
theorem get_logs_shape (d : DB) (u : Option String) (limit : Int) (item : LogItem)
    (hl : limit ≠ 0) (hitem : item ∈ get_logs (some d) u limit) :
    get_logs none u limit = [] ∧
    List.Sorted (fun a b : LogItem => b.created_at ≤ a.created_at)
      (get_logs (some d) u limit) ∧
    (get_logs (some d) u limit).length ≤ limit.natAbs ∧
    ∃ doc ∈ d.logs, item = stringifyId doc := by
  have hsorted : ((d.logs.filter (matchesFlt (logsFlt u))).insertionSort logRel).Sorted
      logRel := List.sorted_insertionSort logRel _
  refine ⟨rfl, ?_, ?_, ?_⟩
  · show List.Sorted _ ((mongoLimit limit _).map stringifyId)
    rw [List.Sorted, List.pairwise_map]
    exact sorted_mongoLimit limit _ hsorted
  · show ((mongoLimit limit _).map stringifyId).length ≤ limit.natAbs
    rw [List.length_map]
    unfold mongoLimit
    rw [if_neg hl]
    exact (List.length_take_le _ _)
  · obtain ⟨doc, hdoc, hdoceq⟩ := List.mem_map.mp hitem
    refine ⟨doc, ?_, hdoceq.symm⟩
    have := mem_of_mem_mongoLimit hdoc
    rw [List.mem_insertionSort] at this
    exact (List.mem_filter.mp this).1

set_option maxRecDepth 4000 in
/-- C6 witness: two stored entries; the most recent is returned first. -/
theorem get_logs_shape_witness :
    (100 : Int) ≠ 0 ∧
    (⟨"2", none, "login", "m2", none, 9⟩ : LogItem) ∈
      get_logs (some ⟨[⟨1, some "a", "info", "m1", none, 5⟩,
        ⟨2, none, "login", "m2", none, 9⟩], []⟩) none 100 ∧
    (get_logs none none 100 = [] ∧
      List.Sorted (fun a b : LogItem => b.created_at ≤ a.created_at)
        (get_logs (some ⟨[⟨1, some "a", "info", "m1", none, 5⟩,
          ⟨2, none, "login", "m2", none, 9⟩], []⟩) none 100) ∧
      (get_logs (some ⟨[⟨1, some "a", "info", "m1", none, 5⟩,
        ⟨2, none, "login", "m2", none, 9⟩], []⟩) none 100).length ≤ (100 : Int).natAbs ∧
      ∃ doc ∈ (DB.mk [⟨1, some "a", "info", "m1", none, 5⟩,
        ⟨2, none, "login", "m2", none, 9⟩] []).logs,
        (⟨"2", none, "login", "m2", none, 9⟩ : LogItem) = stringifyId doc) :=
  ⟨by decide, by decide,
    get_logs_shape ⟨[⟨1, some "a", "info", "m1", none, 5⟩,
      ⟨2, none, "login", "m2", none, 9⟩], []⟩ none 100
      ⟨"2", none, "login", "m2", none, 9⟩ (by decide) (by decide)⟩

/-- Inserting a strictly most recent document and sorting by descending
`created_at` puts that document first. -/
theorem insertionSort_strict_max_head (l : List LogDoc) (m : LogDoc)
    (hmax : ∀ x ∈ l, x.created_at < m.created_at) :
    ∃ t, (l ++ [m]).insertionSort logRel = m :: t := by
  have hsorted := List.sorted_insertionSort logRel (l ++ [m])
  cases hs : (l ++ [m]).insertionSort logRel with
  | nil =>
      exfalso
      have hm : m ∈ (l ++ [m]).insertionSort logRel := by
        rw [List.mem_insertionSort]; simp
      rw [hs] at hm
      exact (List.not_mem_nil m) hm
  | cons h t =>
      refine ⟨t, ?_⟩
      have hhm : h ∈ l ++ [m] := by
        have : h ∈ (l ++ [m]).insertionSort logRel := by
          rw [hs]; exact List.mem_cons_self h t
        rwa [List.mem_insertionSort] at this
      rw [hs] at hsorted
      have hrel := (List.sorted_cons.mp hsorted).1
      have hmem : m ∈ h :: t := by
        have : m ∈ (l ++ [m]).insertionSort logRel := by
          rw [List.mem_insertionSort]; simp
        rwa [hs] at this
      rcases List.mem_append.mp hhm with hinl | hm
      · exfalso
        have hlt := hmax h hinl
        rcases List.mem_cons.mp hmem with heq | hmt
        · rw [heq] at hlt; exact Nat.lt_irrefl _ hlt
        · exact Nat.not_le.mpr hlt (hrel m hmt)
      · rw [List.mem_singleton.mp hm]

/-- C7: POST `/api/logs` with a valid entry always returns status ok, with a
warning exactly when storage is unavailable; with storage available it
assigns `created_at` to the server time of the request (no older than the
request's arrival), and a subsequent GET `/api/logs` returns the stored
entry first, carrying that timestamp. -/
theorem add_log_roundtrip (db : Option DB) (d : DB) (e : LogEntry)
    (reqTime now : Timestamp) (newId : Nat)
    (hreq : reqTime ≤ now) (hvalid : validLogType e.type = true)
    (hdb : db = some d) (hfresh : ∀ x ∈ d.logs, x.created_at < now) :
    (add_log db e now newId).1.status = "ok" ∧
    (add_log none e now newId).1 = ⟨"ok", some "database not configured"⟩ ∧
    (add_log db e now newId).1.warning = none ∧
    ∃ item ∈ get_logs (add_log db e now newId).2 none 100,
      item.created_at = now ∧ reqTime ≤ item.created_at ∧ item.user_id = e.user_id ∧
      item.type = e.type ∧ item.message = e.message := by
  subst hdb
  refine ⟨rfl, rfl, rfl, ?_⟩
  obtain ⟨t, ht⟩ := insertionSort_strict_max_head d.logs
    (LogDoc.mk newId e.user_id e.type e.message e.data now) hfresh
  refine ⟨stringifyId (LogDoc.mk newId e.user_id e.type e.message e.data now), ?_,
    rfl, hreq, rfl, rfl, rfl⟩
  show stringifyId (LogDoc.mk newId e.user_id e.type e.message e.data now) ∈
    (mongoLimit 100
      (((d.logs ++ [LogDoc.mk newId e.user_id e.type e.message e.data now]).filter
        (matchesFlt (logsFlt none))).insertionSort logRel)).map stringifyId
  have hfilter : List.filter (matchesFlt (logsFlt none))
      (d.logs ++ [LogDoc.mk newId e.user_id e.type e.message e.data now]) =
      d.logs ++ [LogDoc.mk newId e.user_id e.type e.message e.data now] :=
    List.filter_eq_self.mpr (fun a _ => rfl)
  rw [hfilter, ht]
  simp [mongoLimit]

/-- C7 witness: one pre-existing older entry, then a valid login entry. -/
theorem add_log_roundtrip_witness :
    (4 : Timestamp) ≤ 7 ∧ validLogType "login" = true ∧
    (some (DB.mk [⟨1, none, "info", "old", none, 3⟩] []) =
      some (DB.mk [⟨1, none, "info", "old", none, 3⟩] [])) ∧
    (∀ x ∈ (DB.mk [⟨1, none, "info", "old", none, 3⟩] []).logs, x.created_at < 7) ∧
    ((add_log (some ⟨[⟨1, none, "info", "old", none, 3⟩], []⟩)
        ⟨some "u1", "login", "hello", none⟩ 7 2).1.status = "ok" ∧
      (add_log none ⟨some "u1", "login", "hello", none⟩ 7 2).1 =
        ⟨"ok", some "database not configured"⟩ ∧
      (add_log (some ⟨[⟨1, none, "info", "old", none, 3⟩], []⟩)
        ⟨some "u1", "login", "hello", none⟩ 7 2).1.warning = none ∧
      ∃ item ∈ get_logs (add_log (some ⟨[⟨1, none, "info", "old", none, 3⟩], []⟩)
          ⟨some "u1", "login", "hello", none⟩ 7 2).2 none 100,
        item.created_at = 7 ∧ (4 : Timestamp) ≤ item.created_at ∧
        item.user_id = some "u1" ∧ item.type = "login" ∧ item.message = "hello") :=
  ⟨by decide, by decide, rfl, by decide,
    add_log_roundtrip (some ⟨[⟨1, none, "info", "old", none, 3⟩], []⟩)
      ⟨[⟨1, none, "info", "old", none, 3⟩], []⟩ ⟨some "u1", "login", "hello", none⟩
      4 7 2 (by decide) (by decide) rfl (by decide)⟩

end SecurityHub
